import Mathlib

/-!
Verification of the session-lifecycle core of lightdm (src/session.c).

The C code is shallowly embedded: the Session object's private state becomes
a Lean structure, environment maps become association lists with unique keys,
and the external collaborators (PAM, ConsoleKit, the process abstraction,
libc privilege calls) are modelled by oracle records supplying their results
plus event traces recording every call made to them.  Each session operation
is a pure Lean function from state and oracle to result, new state and trace.
-/

namespace LightdmSession

/-- A user identity as produced by the user-accounts collaborator
(user_get_name, user_get_uid, user_get_gid, user_get_home_directory,
user_get_shell, user_get_locale in the C code). -/
structure User where
  name : String
  uid : Nat
  gid : Nat
  home_directory : String
  shell : String
  locale : Option String
deriving DecidableEq

/-- The PAM authentication handle: pam_session_get_user yields the user,
pam_session_get_envlist yields the list of raw "name=value" strings. -/
structure PAMSession where
  user : User
  envlist : List String
deriving DecidableEq

/-- GVariant values used as ConsoleKit session parameters. -/
inductive GVariant
  | int32 (i : Int)
  | string (s : String)
deriving DecidableEq

/-- Environment map: association list, kept with unique keys by envSet. -/
abbrev EnvMap := List (String × String)

/-- Modelled from the spec: process_set_env of the external process
abstraction (whose source is not part of src/) — overwrite any existing
binding for the name and append the new binding (unique keys, last write
wins). -/
def envSet (e : EnvMap) (n v : String) : EnvMap :=
  (e.filter (fun p => p.1 ≠ n)) ++ [(n, v)]

/-- Modelled from the spec: process_get_env of the external process
abstraction — the first (hence, only) binding for the name. -/
def envGet : EnvMap → String → Option String
  | [], _ => none
  | (k, v) :: rest, n => if k = n then some v else envGet rest n

/-- The private state of a Session object (struct SessionPrivate), together
with the command and environment stored on the underlying Process object. -/
structure SessionState where
  log_file : Option String := none
  log_file_as_user : Bool := false
  authentication : Option PAMSession := none
  command : Option String := none
  console_kit_parameters : List (String × GVariant) := []
  console_kit_cookie : Option String := none
  is_greeter : Bool := false
  env : EnvMap := []
  process_command : Option String := none
  clear_environment : Bool := false

/-- session_init: a freshly constructed Session has an empty ConsoleKit
parameter table and sets process_set_clear_environment (PROCESS (session), TRUE)
on the underlying process abstraction. -/
def session_init : SessionState :=
  { console_kit_parameters := [], clear_environment := true }

/-- session_set_log_file. -/
def session_set_log_file (s : SessionState) (filename : String) (as_user : Bool) :
    SessionState :=
  { s with log_file := some filename, log_file_as_user := as_user }

/-- session_set_authentication. -/
def session_set_authentication (s : SessionState) (authentication : PAMSession) :
    SessionState :=
  { s with authentication := some authentication }

/-- session_set_is_greeter. -/
def session_set_is_greeter (s : SessionState) (is_greeter : Bool) : SessionState :=
  { s with is_greeter := is_greeter }

/-- session_set_command. -/
def session_set_command (s : SessionState) (command : String) : SessionState :=
  { s with command := some command }

/-- session_set_env (delegates to process_set_env on the underlying process). -/
def session_set_env (s : SessionState) (n v : String) : SessionState :=
  { s with env := envSet s.env n v }

/-- session_get_env (delegates to process_get_env). -/
def session_get_env (s : SessionState) (n : String) : Option String :=
  envGet s.env n

/-- g_hash_table_insert on the ConsoleKit parameter table: keys unique,
last write wins. -/
def paramInsert (l : List (String × GVariant)) (n : String) (v : GVariant) :
    List (String × GVariant) :=
  (l.filter (fun p => p.1 ≠ n)) ++ [(n, v)]

/-- session_set_console_kit_parameter. -/
def session_set_console_kit_parameter (s : SessionState) (n : String) (v : GVariant) :
    SessionState :=
  { s with console_kit_parameters := paramInsert s.console_kit_parameters n v }

/-- Placeholder user for the undefined case of dereferencing a NULL
authentication pointer; never reached when the start preconditions hold. -/
def no_user : User :=
  { name := "", uid := 0, gid := 0, home_directory := "", shell := "", locale := none }

/-- pam_session_get_user (session->priv->authentication).  The C code
dereferences the pointer unconditionally; the none branch marks that
undefined case. -/
def pam_user (s : SessionState) : User :=
  match s.authentication with
  | some a => a.user
  | none => no_user

/-- pam_session_get_envlist on the stored authentication handle. -/
def pam_envlist (s : SessionState) : List String :=
  match s.authentication with
  | some a => a.envlist
  | none => []

/-- Calls made by the service-side session code to its external
collaborators (PAM, ConsoleKit, the process abstraction, hooks). -/
inductive Event
  | setCommand (cmd : String)
  | pamOpen
  | pamClose
  | ckOpenSession (parameters : List (String × GVariant))
  | ckCloseSession (cookie : String)
  | ckLockSession (cookie : Option String)
  | ckUnlockSession (cookie : Option String)
  | setupHook
  | processStart
  | cleanupHook
  | signalProcess (signum : Nat)
deriving DecidableEq

/-- Results supplied by the environment during session_start:
g_find_program_in_path, the getuid()==0 test, ck_open_session,
getenv XDG_SESSION_COOKIE, the overridable setup hook, and process_start. -/
structure StartOracle where
  find_program : String → Option String
  elevated : Bool
  ck_open_result : Option String
  inherited_cookie : Option String
  setup_result : Bool
  process_start_result : Bool

/-- Break a character list at the first occurrence of the separator,
returning the part before it and, when the separator occurs, the part after
it (verbatim, further separators included). -/
def breakAtFirst (sep : Char) : List Char → List Char × Option (List Char)
  | [] => ([], none)
  | c :: rest =>
    if c = sep then ([], some rest)
    else
      let (pre, post) := breakAtFirst sep rest
      (c :: pre, post)

/-- g_strsplit (command, " ", 2): split at the first space into at most two
tokens, the remainder preserved verbatim; the empty string yields no tokens. -/
def splitCommand (cmd : String) : List String :=
  if cmd = "" then []
  else
    match breakAtFirst ' ' cmd.toList with
    | (tok, none) => [String.mk tok]
    | (tok, some rest) => [String.mk tok, String.mk rest]

/-- get_absolute_command: resolve the first token in the search path and
rejoin the argument blob.  An unresolvable (or empty) command gives none. -/
def get_absolute_command (find_program : String → Option String) (command : String) :
    Option String :=
  match splitCommand command with
  | [] => none
  | tok0 :: rest =>
    match find_program tok0 with
    | none => none
    | some absolute_binary =>
      match rest with
      | [] => some absolute_binary
      | r :: _ => some (absolute_binary ++ " " ++ r)

/-- The GVariant parameter list built for ck_open_session: the unix-user id,
a LoginWindow session-type when this is a greeter, then the stored
ConsoleKit parameters. -/
def ck_parameters (s : SessionState) (u : User) : List (String × GVariant) :=
  [("unix-user", GVariant.int32 u.uid)] ++
    (if s.is_greeter then [("session-type", GVariant.string "LoginWindow")] else []) ++
    s.console_kit_parameters

/-- session_real_start (the default start hook): resolve the command, open
PAM, obtain a ConsoleKit cookie (registering when elevated, inheriting
XDG_SESSION_COOKIE otherwise), expose the cookie in the environment, run the
setup hook, launch the process, and on launch failure close PAM and the
registered ConsoleKit session.  Returns (result, new state, calls made). -/
def session_real_start (s : SessionState) (o : StartOracle) :
    Bool × SessionState × List Event :=
  match s.command with
  | none => (false, s, [])
  | some command =>
  match get_absolute_command o.find_program command with
  | none => (false, s, [])
  | some absolute_command =>
    let s1 := { s with process_command := some absolute_command }
    let user := pam_user s1
    let cookie := if o.elevated then o.ck_open_result else o.inherited_cookie
    let ev1 := [Event.setCommand absolute_command, Event.pamOpen] ++
      (if o.elevated then [Event.ckOpenSession (ck_parameters s1 user)] else [])
    let s2 := { s1 with console_kit_cookie := cookie }
    let s3 := match cookie with
      | some c => { s2 with env := envSet s2.env "XDG_SESSION_COOKIE" c }
      | none => s2
    if o.setup_result = false then
      (false, s3, ev1 ++ [Event.setupHook])
    else if o.process_start_result then
      (true, s3, ev1 ++ [Event.setupHook, Event.processStart])
    else
      (false, s3, ev1 ++ [Event.setupHook, Event.processStart, Event.pamClose] ++
        (if o.elevated then
          match cookie with
          | some c => [Event.ckCloseSession c]
          | none => []
         else []))

/-- session_start: check that the authentication handle and command are set,
seed the POSIX variables PATH, USER, LOGNAME, HOME, SHELL from the identity,
then invoke the start hook (session_real_start by default). -/
def session_start (s : SessionState) (o : StartOracle) :
    Bool × SessionState × List Event :=
  match s.authentication with
  | none => (false, s, [])
  | some auth =>
  match s.command with
  | none => (false, s, [])
  | some _ =>
    let user := auth.user
    let s1 := session_set_env s "PATH" "/usr/local/bin:/usr/bin:/bin"
    let s2 := session_set_env s1 "USER" user.name
    let s3 := session_set_env s2 "LOGNAME" user.name
    let s4 := session_set_env s3 "HOME" user.home_directory
    let s5 := session_set_env s4 "SHELL" user.shell
    session_real_start s5 o

/-- session_lock: when elevated, forward to ck_lock_session with the stored
cookie (even when it is absent); otherwise make no ConsoleKit call. -/
def session_lock (s : SessionState) (elevated : Bool) : List Event :=
  if elevated then [Event.ckLockSession s.console_kit_cookie] else []

/-- session_unlock: when elevated, forward to ck_unlock_session with the
stored cookie; otherwise make no ConsoleKit call. -/
def session_unlock (s : SessionState) (elevated : Bool) : List Event :=
  if elevated then [Event.ckUnlockSession s.console_kit_cookie] else []

/-- session_stop: when the process is not running, report success at once;
otherwise run the cleanup hook, send SIGTERM (15) and report
"not yet stopped" (false). -/
def session_stop (s : SessionState) (is_running : Bool) : Bool × List Event :=
  if is_running = false then (true, [])
  else (false, [Event.cleanupHook, Event.signalProcess 15])

/-- session_stopped (the process-termination notification): close PAM and,
when elevated and a cookie is stored, close the ConsoleKit session.  The
stored cookie field itself is left untouched (it is only freed on
finalization). -/
def session_stopped (s : SessionState) (elevated : Bool) :
    SessionState × List Event :=
  (s, [Event.pamClose] ++
    (if elevated then
      match s.console_kit_cookie with
      | some c => [Event.ckCloseSession c]
      | none => []
     else []))

/-- Splitting a PAM environment entry as g_strsplit (entry, "=", 2) followed
by the tokens[0] && tokens[1] check: entries without "=" (and the empty
entry) are rejected, everything after the first "=" is the value. -/
def parsePamVar (entry : String) : Option (String × String) :=
  if entry = "" then none
  else
    match breakAtFirst '=' entry.toList with
    | (_, none) => none
    | (k, some v) => some (String.mk k, String.mk v)

/-- set_env_from_authentication: apply each parseable "name=value" entry of
the PAM environment list in order; malformed entries are skipped. -/
def set_env_from_authentication (e : EnvMap) (pam_env : List String) : EnvMap :=
  pam_env.foldl
    (fun acc entry =>
      match parsePamVar entry with
      | some (n, v) => envSet acc n v
      | none => acc)
    e

/-- The value the PAM environment list assigns to a name, taking the last
parseable "name=value" entry for it (later entries overwrite earlier ones). -/
def lastAuthValue : List String → String → Option String
  | [], _ => none
  | entry :: rest, n =>
    match lastAuthValue rest n with
    | some v => some v
    | none =>
      match parsePamVar entry with
      | some (k, v) => if k = n then some v else none
      | none => none

/-- set_locale: set LANG from the identity's chosen locale, when present. -/
def set_locale_env (e : EnvMap) (u : User) : EnvMap :=
  match u.locale with
  | some l => envSet e "LANG" l
  | none => e

/-- The build-time configured utility directory (PKGLIBEXEC_DIR). -/
def PKGLIBEXEC_DIR : String := "/usr/lib/lightdm/lightdm"

/-- insert_utility_path: prepend the utility directory to PATH when PATH is
present. -/
def insert_utility_path (e : EnvMap) : EnvMap :=
  match envGet e "PATH" with
  | some orig_path => envSet e "PATH" (PKGLIBEXEC_DIR ++ ":" ++ orig_path)
  | none => e

/-- Calls made inside the child execution context (session_run) before the
target command is executed. -/
inductive ChildEvent
  | redirectStdin
  | openLogFile (path : String)
  | newSession
  | chdirHome (dir : String)
  | initgroupsCall (name : String) (gid : Nat)
  | setgidCall (gid : Nat)
  | setuidCall (uid : Nat)
  | exitFailure
  | pamSetup
  | execCommand
deriving DecidableEq

/-- Results of the fallible libc calls made inside the child: the
getuid()==0 test and the success of chdir, initgroups, setgid and setuid.
(setsid and the log-file open only warn on failure, so they need no result.) -/
structure RunOracle where
  elevated : Bool
  chdir_ok : Bool
  initgroups_ok : Bool
  setgid_ok : Bool
  setuid_ok : Bool

/-- setup_log_file: open/truncate the configured log file (failure merely
warns; with no log file configured, nothing happens). -/
def setup_log_file_events (s : SessionState) : List ChildEvent :=
  match s.log_file with
  | none => []
  | some p => [ChildEvent.openLogFile p]

/-- The child calls made before the working-directory change is tested:
stdin redirection, the privileged-side log redirection, setsid, chdir. -/
def pre_exec_events (s : SessionState) (u : User) : List ChildEvent :=
  [ChildEvent.redirectStdin] ++
    (if s.log_file_as_user = false then setup_log_file_events s else []) ++
    [ChildEvent.newSession, ChildEvent.chdirHome u.home_directory]

/-- The tail of session_run after the privilege change: the user-owned log
redirection, the post-drop PAM setup, the three environment merge phases,
and the hand-off to the generic exec step. -/
def finish_run (s : SessionState) (ev : List ChildEvent) (u : User) :
    List ChildEvent × SessionState :=
  let ev1 := ev ++ (if s.log_file_as_user then setup_log_file_events s else []) ++
    [ChildEvent.pamSetup]
  let env1 := set_env_from_authentication s.env (pam_envlist s)
  let env2 := set_locale_env env1 u
  let env3 := insert_utility_path env2
  (ev1 ++ [ChildEvent.execCommand], { s with env := env3 })

/-- session_run: the child execution context.  After stdin/log/setsid, a
failed chdir to the home directory exits immediately; under elevated
privilege, initgroups, then setgid, then setuid are performed in that order
and any failure exits immediately; only then are the PAM environment, the
locale and the utility path merged and the command executed. -/
def session_run (s : SessionState) (o : RunOracle) :
    List ChildEvent × SessionState :=
  let u := pam_user s
  let ev0 := pre_exec_events s u
  if o.chdir_ok = false then (ev0 ++ [ChildEvent.exitFailure], s)
  else if o.elevated then
    let ev1 := ev0 ++ [ChildEvent.initgroupsCall u.name u.gid]
    if o.initgroups_ok = false then (ev1 ++ [ChildEvent.exitFailure], s)
    else
      let ev2 := ev1 ++ [ChildEvent.setgidCall u.gid]
      if o.setgid_ok = false then (ev2 ++ [ChildEvent.exitFailure], s)
      else
        let ev3 := ev2 ++ [ChildEvent.setuidCall u.uid]
        if o.setuid_ok = false then (ev3 ++ [ChildEvent.exitFailure], s)
        else finish_run s ev3 u
  else finish_run s ev0 u

/-- Modelled from the spec: the child-process environment produced by the
external process abstraction (the ProcessHandle collaborator, whose source
is not part of src/).  With clear_inherited_environment set, the child
receives exactly the session's environment map; otherwise the map is applied
on top of the ambient service environment. -/
def child_environment (ambient : EnvMap) (s : SessionState) : EnvMap :=
  if s.clear_environment then s.env
  else s.env.foldl (fun acc p => envSet acc p.1 p.2) ambient

/-- The five POSIX baseline assignments performed by session_start, in
source order. -/
def posix_env (e : EnvMap) (u : User) : EnvMap :=
  envSet (envSet (envSet (envSet (envSet e
    "PATH" "/usr/local/bin:/usr/bin:/bin")
    "USER" u.name)
    "LOGNAME" u.name)
    "HOME" u.home_directory)
    "SHELL" u.shell

/-- The three privilege-change calls of the drop triad. -/
def isPrivChange : ChildEvent → Bool
  | ChildEvent.initgroupsCall _ _ => true
  | ChildEvent.setgidCall _ => true
  | ChildEvent.setuidCall _ => true
  | _ => false

/-- The privilege-change calls of a child trace, in order. -/
def privEvents (t : List ChildEvent) : List ChildEvent :=
  t.filter isPrivChange

/-- Exposing an obtained cookie to the future child: when a cookie exists it
is stored as XDG_SESSION_COOKIE, otherwise the environment is untouched. -/
def apply_cookie_env (e : EnvMap) (ck : Option String) : EnvMap :=
  match ck with
  | some c => envSet e "XDG_SESSION_COOKIE" c
  | none => e

/-- The environment presented to the child at the exec step: the state after
session_start, run through the child-side session_run. -/
def final_child_env (s : SessionState) (o : StartOracle) (ro : RunOracle) : EnvMap :=
  (session_run (session_start s o).2.1 ro).2.env

/-- A termination-signal call (process_signal) in the service-side trace. -/
def isSignalEvent : Event → Bool
  | Event.signalProcess _ => true
  | _ => false

/-- Concrete identity used to exercise the operations. -/
def userW : User :=
  { name := "alice", uid := 1000, gid := 1000, home_directory := "/home/alice",
    shell := "/bin/sh", locale := some "en_US.UTF-8" }

/-- Concrete authentication handle whose PAM environment overrides HOME. -/
def authW : PAMSession :=
  { user := userW,
    envlist := ["HOME=/pam/home", "XAUTHORITY=/home/alice/.Xauthority",
      "malformed-entry"] }

/-- Concrete search path resolving only the token "xsession". -/
def findW : String → Option String :=
  fun t => if t = "xsession" then some "/usr/bin/xsession" else none

/-- Concrete configured session. -/
def sW : SessionState :=
  { session_init with authentication := some authW, command := some "xsession" }

/-- Oracle for an elevated start whose process launch fails. -/
def oLaunchFail : StartOracle :=
  { find_program := findW, elevated := true, ck_open_result := some "ck-cookie-1",
    inherited_cookie := none, setup_result := true, process_start_result := false }

/-- Oracle for an elevated start whose setup hook reports failure. -/
def oSetupFail : StartOracle :=
  { find_program := findW, elevated := true, ck_open_result := some "ck-cookie-1",
    inherited_cookie := none, setup_result := false, process_start_result := true }

/-- Oracle for a fully successful elevated start. -/
def oStartOk : StartOracle :=
  { find_program := findW, elevated := true, ck_open_result := some "ck-cookie-1",
    inherited_cookie := none, setup_result := true, process_start_result := true }

/-- Oracle whose search path resolves nothing. -/
def oNotFound : StartOracle :=
  { find_program := fun _ => none, elevated := false, ck_open_result := none,
    inherited_cookie := none, setup_result := true, process_start_result := true }

/-- Child oracle: elevated, every libc step succeeds. -/
def roOk : RunOracle :=
  { elevated := true, chdir_ok := true, initgroups_ok := true, setgid_ok := true,
    setuid_ok := true }

/-- Child oracle: elevated, the setgid step fails. -/
def roSetgidFail : RunOracle :=
  { elevated := true, chdir_ok := true, initgroups_ok := true, setgid_ok := false,
    setuid_ok := true }

/-- Concrete running session holding a registrar cookie. -/
def sStoppedW : SessionState :=
  { session_init with
    authentication := some authW
    console_kit_cookie := some "ck-cookie-3" }

theorem envGet_envSet_self (e : EnvMap) (n v : String) :
    envGet (envSet e n v) n = some v := by
  induction e with
  | nil => simp [envSet, envGet]
  | cons p rest ih =>
    obtain ⟨k, w⟩ := p
    by_cases hk : k = n
    · simpa [envSet, envGet, hk] using ih
    · simpa [envSet, envGet, hk] using ih

theorem envGet_envSet_ne (e : EnvMap) {n m : String} (v : String) (h : n ≠ m) :
    envGet (envSet e n v) m = envGet e m := by
  induction e with
  | nil => simp [envSet, envGet, h]
  | cons p rest ih =>
    obtain ⟨k, w⟩ := p
    by_cases hk : k = n
    · subst hk
      simpa [envSet, envGet, h] using ih
    · by_cases hm : k = m
      · subst hm
        simp [envSet, envGet, hk]
      · simpa [envSet, envGet, hk, hm] using ih

theorem envGet_set_env_from_authentication (l : List String) (e : EnvMap) (n : String) :
    envGet (set_env_from_authentication e l) n =
      match lastAuthValue l n with
      | some v => some v
      | none => envGet e n := by
  induction l generalizing e with
  | nil => simp [set_env_from_authentication, lastAuthValue]
  | cons entry rest ih =>
    have step : set_env_from_authentication e (entry :: rest) =
        set_env_from_authentication
          (match parsePamVar entry with
           | some (k, v) => envSet e k v
           | none => e) rest := rfl
    rw [step, ih]
    cases hrest : lastAuthValue rest n with
    | some v => simp [lastAuthValue, hrest]
    | none =>
      cases hentry : parsePamVar entry with
      | none => simp [lastAuthValue, hrest, hentry]
      | some kv =>
        obtain ⟨k, v⟩ := kv
        by_cases hk : k = n
        · subst hk
          simp [lastAuthValue, hrest, hentry, envGet_envSet_self]
        · simp [lastAuthValue, hrest, hentry, hk, envGet_envSet_ne e v hk]

theorem envGet_set_locale_ne (e : EnvMap) (u : User) {n : String} (h : n ≠ "LANG") :
    envGet (set_locale_env e u) n = envGet e n := by
  cases hl : u.locale with
  | none => simp [set_locale_env, hl]
  | some loc => simp [set_locale_env, hl, envGet_envSet_ne e loc (Ne.symm h)]

theorem envGet_set_locale_some (e : EnvMap) (u : User) (loc : String)
    (h : u.locale = some loc) : envGet (set_locale_env e u) "LANG" = some loc := by
  simp [set_locale_env, h, envGet_envSet_self]

theorem envGet_set_locale_none (e : EnvMap) (u : User) (h : u.locale = none) :
    envGet (set_locale_env e u) "LANG" = envGet e "LANG" := by
  simp [set_locale_env, h]

theorem envGet_insert_utility_ne (e : EnvMap) {n : String} (h : n ≠ "PATH") :
    envGet (insert_utility_path e) n = envGet e n := by
  cases hp : envGet e "PATH" with
  | none => simp [insert_utility_path, hp]
  | some p => simp [insert_utility_path, hp, envGet_envSet_ne e _ (Ne.symm h)]

theorem envGet_insert_utility_path (e : EnvMap) (p : String)
    (h : envGet e "PATH" = some p) :
    envGet (insert_utility_path e) "PATH" = some (PKGLIBEXEC_DIR ++ ":" ++ p) := by
  simp [insert_utility_path, h, envGet_envSet_self]

theorem posix_env_PATH (e : EnvMap) (u : User) :
    envGet (posix_env e u) "PATH" = some "/usr/local/bin:/usr/bin:/bin" := by
  rw [posix_env,
    envGet_envSet_ne _ _ (by decide),
    envGet_envSet_ne _ _ (by decide),
    envGet_envSet_ne _ _ (by decide),
    envGet_envSet_ne _ _ (by decide),
    envGet_envSet_self]

theorem posix_env_USER (e : EnvMap) (u : User) :
    envGet (posix_env e u) "USER" = some u.name := by
  rw [posix_env,
    envGet_envSet_ne _ _ (by decide),
    envGet_envSet_ne _ _ (by decide),
    envGet_envSet_ne _ _ (by decide),
    envGet_envSet_self]

theorem posix_env_LOGNAME (e : EnvMap) (u : User) :
    envGet (posix_env e u) "LOGNAME" = some u.name := by
  rw [posix_env,
    envGet_envSet_ne _ _ (by decide),
    envGet_envSet_ne _ _ (by decide),
    envGet_envSet_self]

theorem posix_env_HOME (e : EnvMap) (u : User) :
    envGet (posix_env e u) "HOME" = some u.home_directory := by
  rw [posix_env,
    envGet_envSet_ne _ _ (by decide),
    envGet_envSet_self]

theorem posix_env_SHELL (e : EnvMap) (u : User) :
    envGet (posix_env e u) "SHELL" = some u.shell := by
  rw [posix_env, envGet_envSet_self]

theorem privEvents_setup_log (s : SessionState) :
    (setup_log_file_events s).filter isPrivChange = [] := by
  cases h : s.log_file <;> simp [setup_log_file_events, h, isPrivChange]

theorem privEvents_ite_log (s : SessionState) (c : Prop) [Decidable c] :
    ((if c then setup_log_file_events s else []) : List ChildEvent).filter
      isPrivChange = [] := by
  by_cases h : c <;> simp [h, privEvents_setup_log]

theorem privEvents_pre (s : SessionState) (u : User) :
    (pre_exec_events s u).filter isPrivChange = [] := by
  simp [pre_exec_events, List.filter_append, privEvents_ite_log, isPrivChange]

theorem execCommand_not_mem_setup_log (s : SessionState) :
    ChildEvent.execCommand ∉ setup_log_file_events s := by
  cases h : s.log_file <;> simp [setup_log_file_events, h]

theorem execCommand_not_mem_ite_log (s : SessionState) (c : Prop) [Decidable c] :
    ChildEvent.execCommand ∉ ((if c then setup_log_file_events s else []) :
      List ChildEvent) := by
  by_cases h : c <;> simp [h, execCommand_not_mem_setup_log]

theorem execCommand_not_mem_pre (s : SessionState) (u : User) :
    ChildEvent.execCommand ∉ pre_exec_events s u := by
  simp [pre_exec_events, List.mem_append, execCommand_not_mem_ite_log,
    execCommand_not_mem_setup_log]

theorem getLast?_append_singleton {α : Type} (l : List α) (a : α) :
    (l ++ [a]).getLast? = some a :=
  List.getLast?_concat l

/-- session_real_start only updates the environment, the stored cookie and
the process command; every other field of the state is preserved. -/
theorem session_real_start_preserves (s : SessionState) (o : StartOracle) :
    (session_real_start s o).2.1.authentication = s.authentication ∧
    (session_real_start s o).2.1.command = s.command ∧
    (session_real_start s o).2.1.clear_environment = s.clear_environment ∧
    (session_real_start s o).2.1.log_file = s.log_file ∧
    (session_real_start s o).2.1.log_file_as_user = s.log_file_as_user ∧
    (session_real_start s o).2.1.is_greeter = s.is_greeter := by
  cases hcmd : s.command with
  | none => simp [session_real_start, hcmd]
  | some cmd =>
    cases habs : get_absolute_command o.find_program cmd with
    | none => simp [session_real_start, hcmd, habs]
    | some abs =>
      by_cases hsetup : o.setup_result = false <;>
        by_cases hps : o.process_start_result <;>
        cases hck : (if o.elevated then o.ck_open_result else o.inherited_cookie) <;>
        simp [session_real_start, hcmd, habs, hsetup, hps, hck]

/-- When the preconditions hold, session_start is session_real_start on the
state with the POSIX baseline variables seeded. -/
theorem session_start_eq (s : SessionState) (o : StartOracle) (auth : PAMSession)
    (cmd : String) (ha : s.authentication = some auth) (hc : s.command = some cmd) :
    session_start s o =
      session_real_start { s with env := posix_env s.env auth.user } o := by
  simp [session_start, ha, hc, session_set_env, posix_env]

/-- A successful start implies the preconditions held and the command
resolved. -/
theorem session_start_true_elim (s : SessionState) (o : StartOracle)
    (h : (session_start s o).1 = true) :
    ∃ auth cmd abs, s.authentication = some auth ∧ s.command = some cmd ∧
      get_absolute_command o.find_program cmd = some abs := by
  cases ha : s.authentication with
  | none => simp [session_start, ha] at h
  | some auth =>
    cases hc : s.command with
    | none => simp [session_start, ha, hc] at h
    | some cmd =>
      cases habs : get_absolute_command o.find_program cmd with
      | none =>
        rw [session_start_eq s o auth cmd ha hc] at h
        simp [session_real_start, hc, habs] at h
      | some abs => exact ⟨auth, cmd, abs, rfl, rfl, habs⟩

/-- In the resolved case, the start-side environment gains at most the
XDG_SESSION_COOKIE binding, depending on the cookie that was obtained. -/
theorem session_real_start_env (s : SessionState) (o : StartOracle)
    (cmd abs : String) (hc : s.command = some cmd)
    (habs : get_absolute_command o.find_program cmd = some abs) :
    (session_real_start s o).2.1.env =
      apply_cookie_env s.env
        (if o.elevated then o.ck_open_result else o.inherited_cookie) := by
  by_cases hsetup : o.setup_result = false <;>
    by_cases hps : o.process_start_result <;>
    cases hck : (if o.elevated then o.ck_open_result else o.inherited_cookie) <;>
    simp [session_real_start, apply_cookie_env, hc, habs, hsetup, hps, hck]

/-- In the resolved case, the stored cookie is exactly the one obtained:
the registration result when elevated, the inherited value otherwise. -/
theorem session_real_start_cookie (s : SessionState) (o : StartOracle)
    (cmd abs : String) (hc : s.command = some cmd)
    (habs : get_absolute_command o.find_program cmd = some abs) :
    (session_real_start s o).2.1.console_kit_cookie =
      (if o.elevated then o.ck_open_result else o.inherited_cookie) := by
  by_cases hsetup : o.setup_result = false <;>
    by_cases hps : o.process_start_result <;>
    cases hck : (if o.elevated then o.ck_open_result else o.inherited_cookie) <;>
    simp [session_real_start, hc, habs, hsetup, hps, hck]

theorem envGet_apply_cookie (e : EnvMap) (ck : Option String) {n : String}
    (h : n ≠ "XDG_SESSION_COOKIE") :
    envGet (apply_cookie_env e ck) n = envGet e n := by
  cases ck with
  | none => rfl
  | some c => exact envGet_envSet_ne e c (Ne.symm h)

/-- When the child reaches the exec step, its final environment is the PAM
overrides, then the locale, then the utility-path prefix, applied on top of
the environment inherited from the start side. -/
theorem session_run_env (s : SessionState) (ro : RunOracle)
    (hchdir : ro.chdir_ok = true)
    (hpriv : ro.elevated = true →
      ro.initgroups_ok = true ∧ ro.setgid_ok = true ∧ ro.setuid_ok = true) :
    (session_run s ro).2.env =
      insert_utility_path (set_locale_env
        (set_env_from_authentication s.env (pam_envlist s)) (pam_user s)) := by
  obtain ⟨elev, c, i, g, su⟩ := ro
  cases elev <;> cases c <;> cases i <;> cases g <;> cases su <;>
    simp_all [session_run, finish_run]

/-- Claim C6: for every configured command whose program token cannot be
resolved against the caller's search path, start fails and no further side
effects occur: no external call at all is made, in particular the
authentication handle is never opened and the registrar's open is never
invoked. -/
theorem command_not_found_no_side_effects (s : SessionState) (o : StartOracle)
    (auth : PAMSession) (cmd : String)
    (ha : s.authentication = some auth) (hc : s.command = some cmd)
    (habs : get_absolute_command o.find_program cmd = none) :
    (session_start s o).1 = false ∧
    (session_start s o).2.2 = [] ∧
    Event.pamOpen ∉ (session_start s o).2.2 ∧
    (∀ ps, Event.ckOpenSession ps ∉ (session_start s o).2.2) := by
  rw [session_start_eq s o auth cmd ha hc]
  simp [session_real_start, hc, habs]

/-- Witness for C6 at a concrete unresolvable command. -/
theorem command_not_found_no_side_effects_witness :
    (session_start sW oNotFound).1 = false ∧
    (session_start sW oNotFound).2.2 = [] ∧
    Event.pamOpen ∉ (session_start sW oNotFound).2.2 ∧
    (∀ ps, Event.ckOpenSession ps ∉ (session_start sW oNotFound).2.2) :=
  command_not_found_no_side_effects sW oNotFound authW "xsession" rfl rfl (by decide)

/-- Claim C7: stop while not running reports success synchronously with no
cleanup call and no signal; stop while running runs the cleanup hook exactly
once, sends exactly one signal (SIGTERM), and reports "not yet stopped". -/
theorem stop_protocol_spec (s : SessionState) :
    session_stop s false = (true, ([] : List Event)) ∧
    (session_stop s true).1 = false ∧
    (session_stop s true).2.count Event.cleanupHook = 1 ∧
    (session_stop s true).2.filter isSignalEvent = [Event.signalProcess 15] :=
  ⟨rfl, rfl, rfl, rfl⟩

/-- Claim C8: start with the authentication handle or the command unset
fails immediately, leaves the state unchanged and makes no external call
(so no registration and no launch). -/
theorem start_missing_preconditions (s : SessionState) (o : StartOracle)
    (h : s.authentication = none ∨ s.command = none) :
    session_start s o = (false, s, []) := by
  rcases h with h | h
  · simp [session_start, h]
  · cases ha : s.authentication <;> simp [session_start, ha, h]

/-- Witness for C8 on a freshly constructed session. -/
theorem start_missing_preconditions_witness :
    session_start session_init oNotFound = (false, session_init, []) :=
  start_missing_preconditions session_init oNotFound (Or.inl rfl)

/-- Claim C9: lock and unlock make no registrar call without elevated
privilege, and with elevated privilege forward exactly one lock/unlock call
carrying the stored cookie. -/
theorem lock_unlock_privilege (s : SessionState) :
    session_lock s false = [] ∧ session_unlock s false = [] ∧
    session_lock s true = [Event.ckLockSession s.console_kit_cookie] ∧
    session_unlock s true = [Event.ckUnlockSession s.console_kit_cookie] :=
  ⟨rfl, rfl, rfl, rfl⟩

/-- Claim C10: construction clears the inherited environment on the process
abstraction, and under that flag the child environment is exactly the
session's environment map (no ambient variable leaks); the flag survives
start. -/
theorem clear_environment_construction :
    session_init.clear_environment = true ∧
    (∀ (ambient : EnvMap) (s : SessionState), s.clear_environment = true →
      child_environment ambient s = s.env) ∧
    (∀ (s : SessionState) (o : StartOracle),
      (session_start s o).2.1.clear_environment = s.clear_environment) := by
  refine ⟨rfl, ?_, ?_⟩
  · intro ambient s h
    simp [child_environment, h]
  · intro s o
    cases ha : s.authentication with
    | none => simp [session_start, ha]
    | some auth =>
      cases hc : s.command with
      | none => simp [session_start, ha, hc]
      | some cmd =>
        rw [session_start_eq s o auth cmd ha hc]
        exact (session_real_start_preserves _ o).2.2.1

/-- Witness for C10: a service-side secret in the ambient environment does
not reach the child of a freshly constructed session. -/
theorem clear_environment_construction_witness :
    child_environment [("SECRET", "x")] session_init = session_init.env :=
  clear_environment_construction.2.1 [("SECRET", "x")] session_init rfl

/-- Counterexample to C3: on a concrete elevated start whose setup hook
reports failure (after PAM was opened and a cookie was registered), start
returns failure but the authentication handle is not closed and the
registered session is not closed — no rollback happens, contrary to the
claim. -/
theorem setup_failure_no_rollback_cex :
    (session_start sW oSetupFail).1 = false ∧
    Event.pamOpen ∈ (session_start sW oSetupFail).2.2 ∧
    Event.ckOpenSession (ck_parameters sW userW) ∈ (session_start sW oSetupFail).2.2 ∧
    Event.setupHook ∈ (session_start sW oSetupFail).2.2 ∧
    Event.pamClose ∉ (session_start sW oSetupFail).2.2 ∧
    Event.ckCloseSession "ck-cookie-1" ∉ (session_start sW oSetupFail).2.2 := by
  decide

/-- Claim C3 as amended: if the overridable setup hook reports failure
during start, start aborts and returns failure immediately without any
rollback — the authentication handle is not closed, no registered session
is closed, and the process is never launched. -/
theorem setup_failure_aborts_without_rollback (s : SessionState) (o : StartOracle)
    (hsetup : o.setup_result = false) :
    (session_start s o).1 = false ∧
    Event.pamClose ∉ (session_start s o).2.2 ∧
    (∀ c, Event.ckCloseSession c ∉ (session_start s o).2.2) ∧
    Event.processStart ∉ (session_start s o).2.2 := by
  cases ha : s.authentication with
  | none => simp [session_start, ha]
  | some auth =>
    cases hc : s.command with
    | none => simp [session_start, ha, hc]
    | some cmd =>
      rw [session_start_eq s o auth cmd ha hc]
      cases habs : get_absolute_command o.find_program cmd with
      | none => simp [session_real_start, hc, habs]
      | some abs =>
        by_cases helev : o.elevated <;>
          cases hck : (if o.elevated then o.ck_open_result else o.inherited_cookie) <;>
          simp [session_real_start, hc, habs, hsetup, hck, helev]

/-- Witness for the amended C3 at the concrete setup-failure input. -/
theorem setup_failure_aborts_without_rollback_witness :
    (session_start sW oSetupFail).1 = false ∧
    Event.pamClose ∉ (session_start sW oSetupFail).2.2 ∧
    (∀ c, Event.ckCloseSession c ∉ (session_start sW oSetupFail).2.2) ∧
    Event.processStart ∉ (session_start sW oSetupFail).2.2 :=
  setup_failure_aborts_without_rollback sW oSetupFail rfl

/-- Counterexample to C5: on a concrete elevated start where the launch
fails after PAM was opened and a cookie was obtained, both closes happen
exactly once and start fails, but the stored cookie does not become absent. -/
theorem launch_failure_cookie_not_cleared_cex :
    (session_start sW oLaunchFail).1 = false ∧
    (session_start sW oLaunchFail).2.2.count Event.pamClose = 1 ∧
    (session_start sW oLaunchFail).2.2.count (Event.ckCloseSession "ck-cookie-1") = 1 ∧
    (session_start sW oLaunchFail).2.1.console_kit_cookie ≠ none := by
  decide

/-- Claim C5 as amended: if process launch fails after authentication was
opened and (under elevated privilege) a registrar cookie was obtained, then
close(authentication) and close(cookie) are each invoked exactly once and
start returns failure; the stored cookie, however, is not cleared and keeps
the obtained value. -/
theorem launch_failure_rollback (s : SessionState) (o : StartOracle)
    (auth : PAMSession) (cmd abs c : String)
    (ha : s.authentication = some auth) (hc : s.command = some cmd)
    (habs : get_absolute_command o.find_program cmd = some abs)
    (helev : o.elevated = true) (hck : o.ck_open_result = some c)
    (hsetup : o.setup_result = true) (hps : o.process_start_result = false) :
    (session_start s o).1 = false ∧
    (session_start s o).2.2.count Event.pamClose = 1 ∧
    (session_start s o).2.2.count (Event.ckCloseSession c) = 1 ∧
    (session_start s o).2.1.console_kit_cookie = some c := by
  rw [session_start_eq s o auth cmd ha hc]
  refine ⟨?_, ?_, ?_, ?_⟩ <;>
    simp [session_real_start, hc, habs, helev, hck, hsetup, hps, List.count_cons]

/-- Witness for the amended C5 at the concrete launch-failure input. -/
theorem launch_failure_rollback_witness :
    (session_start sW oLaunchFail).1 = false ∧
    (session_start sW oLaunchFail).2.2.count Event.pamClose = 1 ∧
    (session_start sW oLaunchFail).2.2.count (Event.ckCloseSession "ck-cookie-1") = 1 ∧
    (session_start sW oLaunchFail).2.1.console_kit_cookie = some "ck-cookie-1" :=
  launch_failure_rollback sW oLaunchFail authW "xsession" "/usr/bin/xsession"
    "ck-cookie-1" rfl rfl (by decide) rfl rfl rfl rfl

/-- Counterexample to C4: after the natural process-termination teardown of
a concrete registered session, the registrar close was invoked but the
stored cookie is still present — it was not cleared by teardown. -/
theorem cookie_retained_after_stopped_cex :
    (session_stopped sStoppedW true).2.count (Event.ckCloseSession "ck-cookie-3") = 1 ∧
    (session_stopped sStoppedW true).1.console_kit_cookie ≠ none := by
  decide

/-- Claim C4 as amended: the registrar close is invoked on the stored cookie
during teardown — on the process-termination path when elevated and a
cookie is present, and on the launch-failure rollback path — but the stored
cookie field is never cleared by teardown: both paths leave it exactly as
it was (it is only released when the object is finalized). -/
theorem cookie_closed_but_not_cleared :
    (∀ (s : SessionState) (elevated : Bool),
      (session_stopped s elevated).1.console_kit_cookie = s.console_kit_cookie) ∧
    (∀ (s : SessionState) (c : String), s.console_kit_cookie = some c →
      (session_stopped s true).2 = [Event.pamClose, Event.ckCloseSession c]) ∧
    (∀ (s : SessionState) (o : StartOracle) (auth : PAMSession) (cmd abs c : String),
      s.authentication = some auth → s.command = some cmd →
      get_absolute_command o.find_program cmd = some abs →
      o.elevated = true → o.ck_open_result = some c → o.setup_result = true →
      o.process_start_result = false →
      (session_start s o).2.1.console_kit_cookie = some c ∧
      (session_start s o).2.2.count (Event.ckCloseSession c) = 1) := by
  refine ⟨fun s elevated => rfl, ?_, ?_⟩
  · intro s c h
    simp [session_stopped, h]
  · intro s o auth cmd abs c ha hc habs helev hck hsetup hps
    rw [session_start_eq s o auth cmd ha hc]
    refine ⟨?_, ?_⟩ <;>
      simp [session_real_start, hc, habs, helev, hck, hsetup, hps, List.count_cons]

/-- Witness for the amended C4 at a concrete registered session. -/
theorem cookie_closed_but_not_cleared_witness :
    (session_stopped sStoppedW true).1.console_kit_cookie = some "ck-cookie-3" ∧
    (session_stopped sStoppedW true).2 =
      [Event.pamClose, Event.ckCloseSession "ck-cookie-3"] :=
  ⟨by rw [cookie_closed_but_not_cleared.1 sStoppedW true]; rfl,
    cookie_closed_but_not_cleared.2.1 sStoppedW "ck-cookie-3" rfl⟩

/-- Claim C1: in the elevated child execution context, the privilege-change
calls always form a prefix of [initgroups, setgid, setuid] in that order;
any failure of chdir or of the three privilege steps ends the trace with an
immediate exit and the command is never executed; when all steps succeed the
full ordered triad is performed and the command is executed. -/
theorem privilege_drop_order (s : SessionState) (o : RunOracle)
    (helev : o.elevated = true) :
    privEvents (session_run s o).1 =
      List.take (privEvents (session_run s o).1).length
        [ChildEvent.initgroupsCall (pam_user s).name (pam_user s).gid,
         ChildEvent.setgidCall (pam_user s).gid,
         ChildEvent.setuidCall (pam_user s).uid] ∧
    ((o.chdir_ok = false ∨ o.initgroups_ok = false ∨ o.setgid_ok = false ∨
        o.setuid_ok = false) →
      ChildEvent.execCommand ∉ (session_run s o).1 ∧
      (session_run s o).1.getLast? = some ChildEvent.exitFailure) ∧
    (o.chdir_ok = true → o.initgroups_ok = true → o.setgid_ok = true →
      o.setuid_ok = true →
      privEvents (session_run s o).1 =
        [ChildEvent.initgroupsCall (pam_user s).name (pam_user s).gid,
         ChildEvent.setgidCall (pam_user s).gid,
         ChildEvent.setuidCall (pam_user s).uid] ∧
      ChildEvent.execCommand ∈ (session_run s o).1) := by
  obtain ⟨elev, c, i, g, su⟩ := o
  cases elev with
  | false => simp at helev
  | true =>
    cases c <;> cases i <;> cases g <;> cases su <;>
      simp [session_run, finish_run, privEvents, List.filter_append,
        privEvents_pre, privEvents_ite_log, privEvents_setup_log, isPrivChange,
        execCommand_not_mem_pre, execCommand_not_mem_ite_log,
        execCommand_not_mem_setup_log]

/-- Witness for C1 on a concrete elevated run whose setgid step fails. -/
theorem privilege_drop_order_witness :
    privEvents (session_run sW roSetgidFail).1 =
      List.take (privEvents (session_run sW roSetgidFail).1).length
        [ChildEvent.initgroupsCall (pam_user sW).name (pam_user sW).gid,
         ChildEvent.setgidCall (pam_user sW).gid,
         ChildEvent.setuidCall (pam_user sW).uid] ∧
    ((roSetgidFail.chdir_ok = false ∨ roSetgidFail.initgroups_ok = false ∨
        roSetgidFail.setgid_ok = false ∨ roSetgidFail.setuid_ok = false) →
      ChildEvent.execCommand ∉ (session_run sW roSetgidFail).1 ∧
      (session_run sW roSetgidFail).1.getLast? = some ChildEvent.exitFailure) ∧
    (roSetgidFail.chdir_ok = true → roSetgidFail.initgroups_ok = true →
      roSetgidFail.setgid_ok = true → roSetgidFail.setuid_ok = true →
      privEvents (session_run sW roSetgidFail).1 =
        [ChildEvent.initgroupsCall (pam_user sW).name (pam_user sW).gid,
         ChildEvent.setgidCall (pam_user sW).gid,
         ChildEvent.setuidCall (pam_user sW).uid] ∧
      ChildEvent.execCommand ∈ (session_run sW roSetgidFail).1) :=
  privilege_drop_order sW roSetgidFail rfl

/-- Claim C2: for a successfully started session whose child reaches the
exec step, the child environment reflects the override order baseline →
authentication overrides → locale LANG → utility-path PATH prefix, later
phases winning on collision: an authentication override (HOME in
particular) wins over the baseline; the locale wins over any LANG override;
PATH is the utility prefix on the authentication PATH when set, else on the
baseline PATH; names untouched by later phases keep their baseline value. -/
theorem environment_override_order (s : SessionState) (o : StartOracle)
    (ro : RunOracle) (auth : PAMSession)
    (ha : s.authentication = some auth)
    (hstart : (session_start s o).1 = true)
    (hchdir : ro.chdir_ok = true)
    (hpriv : ro.elevated = true →
      ro.initgroups_ok = true ∧ ro.setgid_ok = true ∧ ro.setuid_ok = true) :
    (∀ v, lastAuthValue auth.envlist "HOME" = some v →
      envGet (final_child_env s o ro) "HOME" = some v) ∧
    (lastAuthValue auth.envlist "HOME" = none →
      envGet (final_child_env s o ro) "HOME" = some auth.user.home_directory) ∧
    (∀ loc, auth.user.locale = some loc →
      envGet (final_child_env s o ro) "LANG" = some loc) ∧
    (auth.user.locale = none → ∀ v, lastAuthValue auth.envlist "LANG" = some v →
      envGet (final_child_env s o ro) "LANG" = some v) ∧
    (envGet (final_child_env s o ro) "PATH" =
      some (PKGLIBEXEC_DIR ++ ":" ++
        ((lastAuthValue auth.envlist "PATH").getD "/usr/local/bin:/usr/bin:/bin"))) ∧
    (∀ n v, n ≠ "PATH" → n ≠ "LANG" → lastAuthValue auth.envlist n = some v →
      envGet (final_child_env s o ro) n = some v) ∧
    (lastAuthValue auth.envlist "USER" = none →
      envGet (final_child_env s o ro) "USER" = some auth.user.name) ∧
    (lastAuthValue auth.envlist "LOGNAME" = none →
      envGet (final_child_env s o ro) "LOGNAME" = some auth.user.name) ∧
    (lastAuthValue auth.envlist "SHELL" = none →
      envGet (final_child_env s o ro) "SHELL" = some auth.user.shell) := by
  obtain ⟨auth2, cmd, abs, ha2, hc, habs⟩ := session_start_true_elim s o hstart
  have hinj : auth = auth2 := Option.some.inj ((ha.symm.trans ha2))
  subst hinj
  have hE : (session_real_start { s with env := posix_env s.env auth.user } o).2.1.env =
      apply_cookie_env (posix_env s.env auth.user)
        (if o.elevated then o.ck_open_result else o.inherited_cookie) :=
    session_real_start_env _ o cmd abs hc habs
  have hA : (session_real_start { s with env := posix_env s.env auth.user } o).2.1.authentication =
      some auth := by
    rw [(session_real_start_preserves _ o).1]
    exact ha
  have hrun : final_child_env s o ro =
      insert_utility_path (set_locale_env
        (set_env_from_authentication
          (apply_cookie_env (posix_env s.env auth.user)
            (if o.elevated then o.ck_open_result else o.inherited_cookie))
          auth.envlist) auth.user) := by
    rw [final_child_env, session_start_eq s o auth cmd ha hc,
      session_run_env _ ro hchdir hpriv, hE]
    simp [pam_envlist, pam_user, hA]
  rw [hrun]
  refine ⟨?_, ?_, ?_, ?_, ?_, ?_, ?_, ?_, ?_⟩
  · intro v hv
    rw [envGet_insert_utility_ne _ (by decide),
      envGet_set_locale_ne _ _ (by decide),
      envGet_set_env_from_authentication, hv]
  · intro h0
    rw [envGet_insert_utility_ne _ (by decide),
      envGet_set_locale_ne _ _ (by decide),
      envGet_set_env_from_authentication, h0,
      envGet_apply_cookie _ _ (by decide), posix_env_HOME]
  · intro loc hloc
    rw [envGet_insert_utility_ne _ (by decide),
      envGet_set_locale_some _ _ loc hloc]
  · intro hnone v hv
    rw [envGet_insert_utility_ne _ (by decide),
      envGet_set_locale_none _ _ hnone,
      envGet_set_env_from_authentication, hv]
  · have hbase : envGet (set_locale_env
        (set_env_from_authentication
          (apply_cookie_env (posix_env s.env auth.user)
            (if o.elevated then o.ck_open_result else o.inherited_cookie))
          auth.envlist) auth.user) "PATH" =
        some ((lastAuthValue auth.envlist "PATH").getD "/usr/local/bin:/usr/bin:/bin") := by
      rw [envGet_set_locale_ne _ _ (by decide), envGet_set_env_from_authentication]
      cases hp : lastAuthValue auth.envlist "PATH" with
      | some p => simp
      | none =>
        rw [envGet_apply_cookie _ _ (by decide), posix_env_PATH]
        simp
    rw [envGet_insert_utility_path _ _ hbase]
  · intro n v hnp hnl hv
    rw [envGet_insert_utility_ne _ hnp,
      envGet_set_locale_ne _ _ hnl,
      envGet_set_env_from_authentication, hv]
  · intro h0
    rw [envGet_insert_utility_ne _ (by decide),
      envGet_set_locale_ne _ _ (by decide),
      envGet_set_env_from_authentication, h0,
      envGet_apply_cookie _ _ (by decide), posix_env_USER]
  · intro h0
    rw [envGet_insert_utility_ne _ (by decide),
      envGet_set_locale_ne _ _ (by decide),
      envGet_set_env_from_authentication, h0,
      envGet_apply_cookie _ _ (by decide), posix_env_LOGNAME]
  · intro h0
    rw [envGet_insert_utility_ne _ (by decide),
      envGet_set_locale_ne _ _ (by decide),
      envGet_set_env_from_authentication, h0,
      envGet_apply_cookie _ _ (by decide), posix_env_SHELL]

/-- Witness for C2 on a concretely successful elevated start and run. -/
theorem environment_override_order_witness :
    (∀ v, lastAuthValue authW.envlist "HOME" = some v →
      envGet (final_child_env sW oStartOk roOk) "HOME" = some v) ∧
    (lastAuthValue authW.envlist "HOME" = none →
      envGet (final_child_env sW oStartOk roOk) "HOME" =
        some authW.user.home_directory) ∧
    (∀ loc, authW.user.locale = some loc →
      envGet (final_child_env sW oStartOk roOk) "LANG" = some loc) ∧
    (authW.user.locale = none → ∀ v, lastAuthValue authW.envlist "LANG" = some v →
      envGet (final_child_env sW oStartOk roOk) "LANG" = some v) ∧
    (envGet (final_child_env sW oStartOk roOk) "PATH" =
      some (PKGLIBEXEC_DIR ++ ":" ++
        ((lastAuthValue authW.envlist "PATH").getD "/usr/local/bin:/usr/bin:/bin"))) ∧
    (∀ n v, n ≠ "PATH" → n ≠ "LANG" → lastAuthValue authW.envlist n = some v →
      envGet (final_child_env sW oStartOk roOk) n = some v) ∧
    (lastAuthValue authW.envlist "USER" = none →
      envGet (final_child_env sW oStartOk roOk) "USER" = some authW.user.name) ∧
    (lastAuthValue authW.envlist "LOGNAME" = none →
      envGet (final_child_env sW oStartOk roOk) "LOGNAME" = some authW.user.name) ∧
    (lastAuthValue authW.envlist "SHELL" = none →
      envGet (final_child_env sW oStartOk roOk) "SHELL" = some authW.user.shell) :=
  environment_override_order sW oStartOk roOk authW rfl (by decide) rfl (by decide)

end LightdmSession
